import Mathlib

/-!
Shallow embedding of the diagnostic engine in `modules/diagnostics.py` of the
forecast-monitor repository, together with theorems settling the spec claims.

Real-valued series are modelled as `List ℝ`.  Floating-point arithmetic is
modelled by real arithmetic; the one place the source relies on IEEE infinity
(the percentage difference in `detect_magnitude_mismatch`) is modelled with
`EReal`.  Python exceptions are modelled with `Except`.
-/

namespace ForecastMonitor

noncomputable section

open scoped BigOperators

/-- Mean of a series (`np.mean` and the pandas mean): sum divided by length. -/
def mean (l : List ℝ) : ℝ := l.sum / l.length

/-- Sample standard deviation (the pandas std, default `ddof=1`): square root
of the sum of squared deviations divided by `n - 1`. -/
def sampleStd (l : List ℝ) : ℝ :=
  Real.sqrt ((l.map fun x => (x - mean l) ^ 2).sum / ((l.length : ℝ) - 1))

/-- Sum of products of deviations, `Σ (xᵢ - x̄)(yᵢ - ȳ)` over the zipped lists.
This is scipy `ssxym` up to the `1/n` factor, which cancels in the slope and in
the correlation coefficient. -/
def devProdSum (xs ys : List ℝ) : ℝ :=
  ((xs.zip ys).map fun p => (p.1 - mean xs) * (p.2 - mean ys)).sum

/-- Sum of squared deviations `Σ (xᵢ - x̄)²` (scipy `ssxm`/`ssym` up to `1/n`). -/
def devSqSum (xs : List ℝ) : ℝ :=
  (xs.map fun x => (x - mean xs) ^ 2).sum

/-- The abscissa list `np.arange(len(ys))` used by both linear fits. -/
def idxList (n : ℕ) : List ℝ := (List.range n).map fun i => (i : ℝ)

/-- Slope of `scipy.stats.linregress(np.arange(n), ys)`:
`ssxym / ssxm` (the common `1/n` normalisation cancels). -/
def linregressSlope (ys : List ℝ) : ℝ :=
  devProdSum (idxList ys.length) ys / devSqSum (idxList ys.length)

/-- Correlation coefficient of `scipy.stats.linregress(np.arange(n), ys)`:
`0` when either sum of squares vanishes, otherwise
`ssxym / sqrt(ssxm * ssym)` clamped into `[-1, 1]` exactly as scipy does. -/
def linregressR (ys : List ℝ) : ℝ :=
  let xs := idxList ys.length
  if devSqSum xs = 0 ∨ devSqSum ys = 0 then 0
  else
    let r := devProdSum xs ys / Real.sqrt (devSqSum xs * devSqSum ys)
    if r > 1 then 1 else if r < -1 then -1 else r

/-- Errors raised inside the diagnostic engine.
`insufficientData` is modelled from the spec: the repository defines no error
class itself; per the spec a segment with fewer than 2 points makes the linear
fit of `detect_trend_mismatch` fail with `InsufficientDataError`.
`indexOutOfBounds` models the `IndexError` numpy raises when
`detect_missing_seasonality` indexes the FFT spectrum out of bounds. -/
inductive DiagError where
  | insufficientData
  | indexOutOfBounds

/-- Result dictionary of `detect_trend_mismatch`. -/
structure TrendResult where
  detected : Prop
  confidence : ℝ
  historical_trend : String
  forecast_trend : String
  hist_slope : ℝ
  forecast_slope : ℝ
  hist_r_squared : ℝ
  forecast_r_squared : ℝ

/-- Result dictionary of `detect_missing_seasonality`. -/
structure SeasonalityResult where
  detected : Prop
  confidence : ℝ
  hist_seasonal_strength : ℝ
  forecast_seasonal_strength : ℝ
  threshold : ℝ

/-- Result dictionary of `detect_volatility_mismatch`. -/
structure VolatilityResult where
  detected : Prop
  confidence : ℝ
  hist_cv : ℝ
  forecast_cv : ℝ
  volatility_ratio : ℝ
  threshold : ℝ

/-- Result dictionary of `detect_magnitude_mismatch`.  The percentage
difference can be the IEEE positive infinity, modelled by `⊤ : EReal`. -/
structure MagnitudeResult where
  detected : Prop
  confidence : ℝ
  recent_mean : ℝ
  forecast_mean : ℝ
  pct_difference : EReal
  threshold : ℝ

/-- Successful-path body of `detect_trend_mismatch` (lines 15-38 of
`diagnostics.py`). -/
def trendResultOf (historical_data forecast_data : List ℝ) : TrendResult :=
  let hist_slope := linregressSlope historical_data
  let hist_r_value := linregressR historical_data
  let forecast_slope := linregressSlope forecast_data
  let forecast_r_value := linregressR forecast_data
  let trend_mismatch :=
    (hist_slope > 0 ∧ forecast_slope < 0) ∨ (hist_slope < 0 ∧ forecast_slope > 0)
  { detected := trend_mismatch
    confidence := if trend_mismatch then min |hist_r_value| |forecast_r_value| else 0
    historical_trend := if hist_slope > 0 then "increasing" else "decreasing"
    forecast_trend := if forecast_slope > 0 then "increasing" else "decreasing"
    hist_slope := hist_slope
    forecast_slope := forecast_slope
    hist_r_squared := hist_r_value ^ 2
    forecast_r_squared := forecast_r_value ^ 2 }

/-- The detector `detect_trend_mismatch`.  Modelled from the spec: a segment with fewer than
2 points makes the linear fit fail with `InsufficientDataError` (the repository
leaves the failure to the fitting routine and defines no error class). -/
def detect_trend_mismatch (historical_data forecast_data : List ℝ) :
    Except DiagError TrendResult :=
  if 2 ≤ historical_data.length ∧ 2 ≤ forecast_data.length then
    Except.ok (trendResultOf historical_data forecast_data)
  else
    Except.error DiagError.insufficientData

/-- Entry `k` of the discrete Fourier transform of `xs` (`scipy.fft.fft`):
`X_k = Σ_j x_j · exp(-2πi·j·k/n)`. -/
def dftEntry (xs : List ℝ) (k : ℕ) : ℂ :=
  ∑ j in Finset.range xs.length,
    (xs.getD j 0 : ℂ) *
      Complex.exp (-(2 * (Real.pi : ℂ) * Complex.I * (j : ℂ) * (k : ℂ)) / (xs.length : ℂ))

/-- Magnitude spectrum `np.abs(fft(xs))`: one entry per input point. -/
def fftMag (xs : List ℝ) : List ℝ :=
  (List.range xs.length).map fun k => Complex.abs (dftEntry xs k)

/-- The seasonal frequency-bin index: `n // 12` when `n ≥ 12`, else `1`
(line 48 of `diagnostics.py`). -/
def seasonalFreqIndex (n : ℕ) : ℕ := if 12 ≤ n then n / 12 else 1

/-- Seasonal strength of a magnitude spectrum: the magnitude at the seasonal
bin divided by the mean magnitude over all bins except bin 0. -/
def seasonalStrength (mags : List ℝ) : ℝ :=
  mags.getD (seasonalFreqIndex mags.length) 0 / mean (mags.drop 1)

/-- Successful-path body of `detect_missing_seasonality` (lines 46-71). -/
def seasResultOf (historical_data forecast_data : List ℝ) : SeasonalityResult :=
  let hist_seasonal_strength := seasonalStrength (fftMag historical_data)
  let forecast_seasonal_strength := seasonalStrength (fftMag forecast_data)
  let hist_has_seasonality := hist_seasonal_strength > 1.5
  let forecast_has_seasonality := forecast_seasonal_strength > 1.5
  let missing_seasonality := hist_has_seasonality ∧ ¬forecast_has_seasonality
  { detected := missing_seasonality
    confidence :=
      min (if missing_seasonality then hist_seasonal_strength / 1.5 else 0) 1
    hist_seasonal_strength := hist_seasonal_strength
    forecast_seasonal_strength := forecast_seasonal_strength
    threshold := 1.5 }

/-- The detector `detect_missing_seasonality`.  Indexing the spectrum at the seasonal bin
fails (numpy `IndexError`) when the bin index is not below the spectrum
length, which happens exactly for one-point segments. -/
def detect_missing_seasonality (historical_data forecast_data : List ℝ) :
    Except DiagError SeasonalityResult :=
  if seasonalFreqIndex (fftMag historical_data).length < (fftMag historical_data).length ∧
     seasonalFreqIndex (fftMag forecast_data).length < (fftMag forecast_data).length then
    Except.ok (seasResultOf historical_data forecast_data)
  else
    Except.error DiagError.indexOutOfBounds

/-- Coefficient of variation with the zero-mean fallback of lines 79-80:
`std/mean` when the mean is nonzero, else `0`. -/
def seriesCV (l : List ℝ) : ℝ := if mean l ≠ 0 then sampleStd l / mean l else 0

/-- The detector `detect_volatility_mismatch` (lines 74-96); it never raises. -/
def detect_volatility_mismatch (historical_data forecast_data : List ℝ) :
    VolatilityResult :=
  let hist_cv := seriesCV historical_data
  let forecast_cv := seriesCV forecast_data
  let volatility_ratio := if hist_cv ≠ 0 then forecast_cv / hist_cv else 1
  let too_flat := volatility_ratio < 0.5
  { detected := too_flat
    confidence := if too_flat then (0.5 - volatility_ratio) / 0.5 else 0
    hist_cv := hist_cv
    forecast_cv := forecast_cv
    volatility_ratio := volatility_ratio
    threshold := 0.5 }

/-- The detector `detect_magnitude_mismatch` (lines 99-125); it never raises.  The float
division by the constant `0.5` is written as multiplication by `2` because
`EReal` has no division; the two agree on every value that occurs, including
`+∞`. -/
def detect_magnitude_mismatch (recent_actuals early_forecast : List ℝ) :
    MagnitudeResult :=
  let recent_mean := mean recent_actuals
  let forecast_mean := mean early_forecast
  let pct_diff : EReal :=
    if recent_mean ≠ 0 then ((|forecast_mean - recent_mean| / recent_mean : ℝ) : EReal)
    else if forecast_mean ≠ 0 then (⊤ : EReal) else (0 : EReal)
  let magnitude_mismatch := ((0.5 : ℝ) : EReal) < pct_diff
  { detected := magnitude_mismatch
    confidence :=
      if magnitude_mismatch then (min (pct_diff * ((2 : ℝ) : EReal)) ((1 : ℝ) : EReal)).toReal
      else 0
    recent_mean := recent_mean
    forecast_mean := forecast_mean
    pct_difference := pct_diff
    threshold := 0.5 }

open Classical

/-- The list of confidences of the detectors whose `detected` flag is set, in
detector order: the filtered list built on line 142 of the source. -/
def detectedConfidences (t : TrendResult) (s : SeasonalityResult)
    (v : VolatilityResult) (m : MagnitudeResult) : List ℝ :=
  (if t.detected then [t.confidence] else []) ++
  (if s.detected then [s.confidence] else []) ++
  (if v.detected then [v.confidence] else []) ++
  (if m.detected then [m.confidence] else [])

/-- Number of detectors whose `detected` flag is set: the generator sum on
line 141 of the source. -/
def detectedCount (t : TrendResult) (s : SeasonalityResult)
    (v : VolatilityResult) (m : MagnitudeResult) : ℕ :=
  (if t.detected then 1 else 0) + (if s.detected then 1 else 0) +
  (if v.detected then 1 else 0) + (if m.detected then 1 else 0)

/-- Sum of the confidences of the detectors whose `detected` flag is set. -/
def detectedConfSum (t : TrendResult) (s : SeasonalityResult)
    (v : VolatilityResult) (m : MagnitudeResult) : ℝ :=
  (if t.detected then t.confidence else 0) + (if s.detected then s.confidence else 0) +
  (if v.detected then v.confidence else 0) + (if m.detected then m.confidence else 0)

/-- The `summary` record built on lines 140-148. -/
structure DiagnosticsSummary where
  total_issues : ℕ
  avg_confidence : ℝ
  risk_score : ℝ

/-- The combined dictionary returned by `run_all_diagnostics`. -/
structure AggregateResult where
  trend_mismatch : TrendResult
  missing_seasonality : SeasonalityResult
  volatility_mismatch : VolatilityResult
  magnitude_mismatch : MagnitudeResult
  summary : DiagnosticsSummary

/-- Lines 140-148: count detections, average the confidences over the detected
results (`np.mean` of the filtered list; the value is guarded to `0` when
nothing is detected), and multiply for the risk score. -/
def aggregate (t : TrendResult) (s : SeasonalityResult)
    (v : VolatilityResult) (m : MagnitudeResult) : AggregateResult :=
  let confs := detectedConfidences t s v m
  let detected_issues := confs.length
  { trend_mismatch := t
    missing_seasonality := s
    volatility_mismatch := v
    magnitude_mismatch := m
    summary :=
      { total_issues := detected_issues
        avg_confidence := if 0 < detected_issues then mean confs else 0
        risk_score := if 0 < detected_issues then detected_issues * mean confs else 0 } }

/-- The aggregator `run_all_diagnostics` (lines 128-150).  The four detectors run in the
order of the dictionary literal; an exception from any of them propagates to
the caller unchanged (there is no handler in the aggregator). -/
def run_all_diagnostics (historical_data forecast_data recent_actuals early_forecast : List ℝ) :
    Except DiagError AggregateResult :=
  match detect_trend_mismatch historical_data forecast_data with
  | Except.error e => Except.error e
  | Except.ok t =>
    match detect_missing_seasonality historical_data forecast_data with
    | Except.error e => Except.error e
    | Except.ok s =>
      Except.ok (aggregate t s
        (detect_volatility_mismatch historical_data forecast_data)
        (detect_magnitude_mismatch recent_actuals early_forecast))

/-! General lemmas about the embedded operations -/

lemma fftMag_length (xs : List ℝ) : (fftMag xs).length = xs.length := by
  simp [fftMag]

lemma getD_nonneg (l : List ℝ) (n : ℕ) (h : ∀ x ∈ l, 0 ≤ x) : 0 ≤ l.getD n 0 := by
  induction l generalizing n with
  | nil => simp [List.getD]
  | cons a t ih =>
    cases n with
    | zero => simpa using h a (by simp)
    | succ m => simpa using ih m fun x hx => h x (by simp [hx])

lemma fftMag_nonneg (xs : List ℝ) : ∀ x ∈ fftMag xs, 0 ≤ x := by
  intro x hx
  simp only [fftMag, List.mem_map] at hx
  obtain ⟨k, -, hk⟩ := hx
  exact hk ▸ Complex.abs.nonneg _

lemma mean_nonneg (l : List ℝ) (h : ∀ x ∈ l, 0 ≤ x) : 0 ≤ mean l :=
  div_nonneg (List.sum_nonneg h) (Nat.cast_nonneg _)

lemma seasonalStrength_nonneg (mags : List ℝ) (h : ∀ x ∈ mags, 0 ≤ x) :
    0 ≤ seasonalStrength mags :=
  div_nonneg (getD_nonneg _ _ h)
    (mean_nonneg _ fun x hx => h x (List.drop_subset 1 mags hx))

lemma abs_linregressR_le_one (ys : List ℝ) : |linregressR ys| ≤ 1 := by
  simp only [linregressR]
  split_ifs with h1 h2 h3
  · norm_num
  · norm_num
  · norm_num
  · rw [not_lt] at h2 h3
    exact abs_le.mpr ⟨h3, h2⟩

lemma seasonalFreqIndex_lt (n : ℕ) (h : 2 ≤ n) : seasonalFreqIndex n < n := by
  rw [seasonalFreqIndex]
  split_ifs with h12
  · exact Nat.div_lt_self (by omega) (by norm_num)
  · omega

/-! Confidence shape of the seasonality and magnitude detectors -/

lemma seasResultOf_confidence_eq_one (H F : List ℝ) (h : (seasResultOf H F).detected) :
    (seasResultOf H F).confidence = 1 := by
  simp only [seasResultOf] at h ⊢
  rw [if_pos h]
  have h15 : (1.5 : ℝ) < seasonalStrength (fftMag H) := h.1
  rw [min_eq_right]
  exact le_of_lt ((one_lt_div (by norm_num)).mpr (by linarith))

lemma seasResultOf_confidence_eq_zero (H F : List ℝ) (h : ¬(seasResultOf H F).detected) :
    (seasResultOf H F).confidence = 0 := by
  simp only [seasResultOf] at h ⊢
  rw [if_neg h]
  norm_num

lemma magnitude_confidence_eq_one (R E : List ℝ)
    (h : (detect_magnitude_mismatch R E).detected) :
    (detect_magnitude_mismatch R E).confidence = 1 := by
  simp only [detect_magnitude_mismatch] at h ⊢
  rw [if_pos h]
  by_cases h1 : mean R ≠ 0
  · rw [if_pos h1] at h ⊢
    rw [EReal.coe_lt_coe_iff] at h
    rw [← EReal.coe_mul, min_eq_right (EReal.coe_le_coe_iff.mpr (by linarith)),
      EReal.toReal_coe]
  · rw [if_neg h1] at h ⊢
    by_cases h2 : mean E ≠ 0
    · rw [if_pos h2] at h ⊢
      rw [EReal.top_mul_coe_of_pos (by norm_num), min_eq_right le_top, EReal.toReal_coe]
    · rw [if_neg h2] at h
      rw [← EReal.coe_zero, EReal.coe_lt_coe_iff] at h
      norm_num at h

lemma magnitude_confidence_eq_zero (R E : List ℝ)
    (h : ¬(detect_magnitude_mismatch R E).detected) :
    (detect_magnitude_mismatch R E).confidence = 0 := by
  simp only [detect_magnitude_mismatch] at h ⊢
  rw [if_neg h]

lemma magnitude_confidence_cases (R E : List ℝ) :
    (detect_magnitude_mismatch R E).confidence = 0 ∨
      (detect_magnitude_mismatch R E).confidence = 1 := by
  by_cases h : (detect_magnitude_mismatch R E).detected
  · exact Or.inr (magnitude_confidence_eq_one R E h)
  · exact Or.inl (magnitude_confidence_eq_zero R E h)

/-! The aggregation bookkeeping -/

lemma detectedConfidences_length (t : TrendResult) (s : SeasonalityResult)
    (v : VolatilityResult) (m : MagnitudeResult) :
    (detectedConfidences t s v m).length = detectedCount t s v m := by
  by_cases ht : t.detected <;> by_cases hs : s.detected <;>
    by_cases hv : v.detected <;> by_cases hm : m.detected <;>
    simp [detectedConfidences, detectedCount, ht, hs, hv, hm]

lemma detectedConfidences_sum (t : TrendResult) (s : SeasonalityResult)
    (v : VolatilityResult) (m : MagnitudeResult) :
    (detectedConfidences t s v m).sum = detectedConfSum t s v m := by
  by_cases ht : t.detected <;> by_cases hs : s.detected <;>
    by_cases hv : v.detected <;> by_cases hm : m.detected <;>
    simp [detectedConfidences, detectedConfSum, ht, hs, hv, hm] <;> ring

/-! Concrete evaluations used by the witnesses -/

lemma dftEntry_pair_zero (a b : ℝ) : dftEntry [a, b] 0 = ((a + b : ℝ) : ℂ) := by
  have h0 : (-(2 * (Real.pi : ℂ) * Complex.I * ((0 : ℕ) : ℂ) * ((0 : ℕ) : ℂ)) /
      ((2 : ℕ) : ℂ)) = 0 := by
    push_cast
    ring
  have h1 : (-(2 * (Real.pi : ℂ) * Complex.I * ((1 : ℕ) : ℂ) * ((0 : ℕ) : ℂ)) /
      ((2 : ℕ) : ℂ)) = 0 := by
    push_cast
    ring
  simp [dftEntry, Finset.sum_range_succ, h0, h1]

lemma dftEntry_pair_one (a b : ℝ) : dftEntry [a, b] 1 = ((a - b : ℝ) : ℂ) := by
  have h0 : (-(2 * (Real.pi : ℂ) * Complex.I * ((0 : ℕ) : ℂ) * ((1 : ℕ) : ℂ)) /
      ((2 : ℕ) : ℂ)) = 0 := by
    push_cast
    ring
  have h1 : (-(2 * (Real.pi : ℂ) * Complex.I * ((1 : ℕ) : ℂ) * ((1 : ℕ) : ℂ)) /
      ((2 : ℕ) : ℂ)) = -((Real.pi : ℂ) * Complex.I) := by
    push_cast
    ring
  have hexp : Complex.exp (-((Real.pi : ℂ) * Complex.I)) = -1 := by
    rw [Complex.exp_neg, Complex.exp_pi_mul_I]
    norm_num
  simp only [dftEntry, List.length_cons, List.length_nil, Finset.sum_range_succ,
    Finset.sum_range_zero, List.getD_cons_zero, List.getD_cons_succ, h0, h1, hexp]
  rw [Complex.exp_zero]
  push_cast
  ring

lemma fftMag_pair (a b : ℝ) : fftMag [a, b] = [|a + b|, |a - b|] := by
  simp only [fftMag, List.length_cons, List.length_nil, List.range_succ, List.range_zero,
    List.nil_append, List.cons_append, List.map_cons, List.map_nil,
    dftEntry_pair_zero, dftEntry_pair_one, Complex.abs_ofReal]

lemma slope_13 : linregressSlope [1, 3] = 2 := by
  norm_num [linregressSlope, devProdSum, devSqSum, idxList, mean, List.range_succ, List.zip,
    List.zipWith]

lemma slope_31 : linregressSlope [3, 1] = -2 := by
  norm_num [linregressSlope, devProdSum, devSqSum, idxList, mean, List.range_succ, List.zip,
    List.zipWith]

lemma r_13 : linregressR [1, 3] = 1 := by
  have hx : devSqSum (idxList (List.length [(1 : ℝ), 3])) = 1 / 2 := by
    norm_num [devSqSum, idxList, mean, List.range_succ]
  have hy : devSqSum [(1 : ℝ), 3] = 2 := by
    norm_num [devSqSum, mean]
  have hxy : devProdSum (idxList (List.length [(1 : ℝ), 3])) [(1 : ℝ), 3] = 1 := by
    norm_num [devProdSum, idxList, mean, List.range_succ, List.zip, List.zipWith]
  rw [linregressR, if_neg]
  · rw [hxy, hx, hy]
    norm_num [Real.sqrt_one]
  · rw [hx, hy]
    norm_num

lemma r_31 : linregressR [3, 1] = -1 := by
  have hx : devSqSum (idxList (List.length [(3 : ℝ), 1])) = 1 / 2 := by
    norm_num [devSqSum, idxList, mean, List.range_succ]
  have hy : devSqSum [(3 : ℝ), 1] = 2 := by
    norm_num [devSqSum, mean]
  have hxy : devProdSum (idxList (List.length [(3 : ℝ), 1])) [(3 : ℝ), 1] = -1 := by
    norm_num [devProdSum, idxList, mean, List.range_succ, List.zip, List.zipWith]
  rw [linregressR, if_neg]
  · rw [hxy, hx, hy]
    norm_num [Real.sqrt_one]
  · rw [hx, hy]
    norm_num

lemma detect_trend_13_31 :
    detect_trend_mismatch [1, 3] [3, 1] = Except.ok (trendResultOf [1, 3] [3, 1]) := by
  simp [detect_trend_mismatch]

lemma trendResultOf_detected_13_31 : (trendResultOf [1, 3] [3, 1]).detected := by
  simp only [trendResultOf]
  refine Or.inl ⟨?_, ?_⟩
  · rw [slope_13]
    norm_num
  · rw [slope_31]
    norm_num

lemma trendResultOf_confidence_13_31 : (trendResultOf [1, 3] [3, 1]).confidence = 1 := by
  have hd := trendResultOf_detected_13_31
  simp only [trendResultOf] at hd ⊢
  rw [if_pos hd, r_13, r_31]
  norm_num

lemma seasonalStrength_13 : seasonalStrength (fftMag [1, 3]) = 1 := by
  rw [fftMag_pair]
  norm_num [seasonalStrength, seasonalFreqIndex, mean]

lemma seasonalStrength_31 : seasonalStrength (fftMag [3, 1]) = 1 := by
  rw [fftMag_pair]
  norm_num [seasonalStrength, seasonalFreqIndex, mean]

lemma detect_seas_13_31 :
    detect_missing_seasonality [1, 3] [3, 1] = Except.ok (seasResultOf [1, 3] [3, 1]) := by
  simp [detect_missing_seasonality, fftMag_length, seasonalFreqIndex]

lemma seas_not_detected_13_31 : ¬(seasResultOf [1, 3] [3, 1]).detected := by
  simp only [seasResultOf]
  intro h
  have h1 := h.1
  rw [seasonalStrength_13] at h1
  norm_num at h1

lemma seriesCV_13 : seriesCV [1, 3] = Real.sqrt 2 / 2 := by
  rw [seriesCV, if_pos]
  · norm_num [sampleStd, mean]
  · norm_num [mean]

lemma seriesCV_31 : seriesCV [3, 1] = Real.sqrt 2 / 2 := by
  rw [seriesCV, if_pos]
  · norm_num [sampleStd, mean]
  · norm_num [mean]

lemma seriesCV_13_ne_zero : seriesCV [1, 3] ≠ 0 := by
  rw [seriesCV_13]
  have : Real.sqrt 2 ≠ 0 := Real.sqrt_ne_zero'.mpr (by norm_num)
  positivity

lemma vol_ratio_13_31 : (detect_volatility_mismatch [1, 3] [3, 1]).volatility_ratio = 1 := by
  simp only [detect_volatility_mismatch]
  rw [if_pos seriesCV_13_ne_zero, seriesCV_31, seriesCV_13]
  exact div_self (by rw [← seriesCV_13]; exact seriesCV_13_ne_zero)

lemma vol_not_detected_13_31 : ¬(detect_volatility_mismatch [1, 3] [3, 1]).detected := by
  have h := vol_ratio_13_31
  simp only [detect_volatility_mismatch] at h ⊢
  rw [h]
  norm_num

lemma mag_not_detected_1_1 : ¬(detect_magnitude_mismatch [1] [1]).detected := by
  simp only [detect_magnitude_mismatch]
  have h1 : mean [(1 : ℝ)] ≠ 0 := by norm_num [mean]
  rw [if_pos h1]
  intro h
  rw [EReal.coe_lt_coe_iff] at h
  norm_num [mean] at h

lemma run_all_eval :
    run_all_diagnostics [1, 3] [3, 1] [1] [1] =
      Except.ok (aggregate (trendResultOf [1, 3] [3, 1]) (seasResultOf [1, 3] [3, 1])
        (detect_volatility_mismatch [1, 3] [3, 1]) (detect_magnitude_mismatch [1] [1])) := by
  simp [run_all_diagnostics, detect_trend_13_31, detect_seas_13_31]

lemma detect_trend_13_13 :
    detect_trend_mismatch [1, 3] [1, 3] = Except.ok (trendResultOf [1, 3] [1, 3]) := by
  simp [detect_trend_mismatch]

lemma trend_not_detected_13_13 : ¬(trendResultOf [1, 3] [1, 3]).detected := by
  simp only [trendResultOf]
  rw [slope_13]
  rintro (⟨-, h⟩ | ⟨h, -⟩) <;> norm_num at h

lemma seriesCV_neg_pair : seriesCV [1, -1] = 0 := by
  rw [seriesCV, if_neg]
  norm_num [mean]

lemma aggregate_spec (t : TrendResult) (s : SeasonalityResult)
    (v : VolatilityResult) (m : MagnitudeResult) :
    (aggregate t s v m).summary.total_issues = detectedCount t s v m ∧
    (aggregate t s v m).summary.avg_confidence =
      (if detectedCount t s v m = 0 then 0 else
        detectedConfSum t s v m / (detectedCount t s v m : ℝ)) ∧
    (aggregate t s v m).summary.risk_score =
      (detectedCount t s v m : ℝ) * (aggregate t s v m).summary.avg_confidence ∧
    (detectedCount t s v m = 1 →
      ((t.detected → (aggregate t s v m).summary.risk_score = t.confidence) ∧
       (s.detected → (aggregate t s v m).summary.risk_score = s.confidence) ∧
       (v.detected → (aggregate t s v m).summary.risk_score = v.confidence) ∧
       (m.detected → (aggregate t s v m).summary.risk_score = m.confidence))) := by
  have hlen := detectedConfidences_length t s v m
  have hsum := detectedConfidences_sum t s v m
  refine ⟨?_, ?_, ?_, ?_⟩
  · simp only [aggregate]
    exact hlen
  · simp only [aggregate]
    rcases Nat.eq_zero_or_pos (detectedCount t s v m) with h0 | h0
    · rw [if_pos h0, hlen, h0]
      norm_num
    · rw [hlen, if_pos h0, if_neg (Nat.pos_iff_ne_zero.mp h0), mean, hsum, hlen]
  · simp only [aggregate]
    rcases Nat.eq_zero_or_pos (detectedCount t s v m) with h0 | h0
    · rw [hlen, h0]
      norm_num
    · rw [hlen, if_pos h0, if_pos h0]
  · intro h1
    refine ⟨?_, ?_, ?_, ?_⟩
    · intro hd
      have hns : ¬s.detected := by
        intro hx
        rw [detectedCount, if_pos hd, if_pos hx] at h1
        omega
      have hnv : ¬v.detected := by
        intro hx
        rw [detectedCount, if_pos hd, if_pos hx] at h1
        omega
      have hnm : ¬m.detected := by
        intro hx
        rw [detectedCount, if_pos hd, if_pos hx] at h1
        omega
      simp [aggregate, detectedConfidences, hd, hns, hnv, hnm, mean]
    · intro hd
      have hnt : ¬t.detected := by
        intro hx
        rw [detectedCount, if_pos hx, if_pos hd] at h1
        omega
      have hnv : ¬v.detected := by
        intro hx
        rw [detectedCount, if_pos hd, if_pos hx] at h1
        omega
      have hnm : ¬m.detected := by
        intro hx
        rw [detectedCount, if_pos hd, if_pos hx] at h1
        omega
      simp [aggregate, detectedConfidences, hd, hnt, hnv, hnm, mean]
    · intro hd
      have hnt : ¬t.detected := by
        intro hx
        rw [detectedCount, if_pos hx, if_pos hd] at h1
        omega
      have hns : ¬s.detected := by
        intro hx
        rw [detectedCount, if_pos hx, if_pos hd] at h1
        omega
      have hnm : ¬m.detected := by
        intro hx
        rw [detectedCount, if_pos hd, if_pos hx] at h1
        omega
      simp [aggregate, detectedConfidences, hd, hnt, hns, hnm, mean]
    · intro hd
      have hnt : ¬t.detected := by
        intro hx
        rw [detectedCount, if_pos hx, if_pos hd] at h1
        omega
      have hns : ¬s.detected := by
        intro hx
        rw [detectedCount, if_pos hx, if_pos hd] at h1
        omega
      have hnv : ¬v.detected := by
        intro hx
        rw [detectedCount, if_pos hx, if_pos hd] at h1
        omega
      simp [aggregate, detectedConfidences, hd, hnt, hns, hnv, mean]

/-! The claims -/

/-- C1: every aggregate result returned by `run_all_diagnostics` satisfies:
`total_issues` is the number of the four detector results with `detected`
true, `avg_confidence` is the mean of the confidences over the detected
results (0 when nothing is detected), `risk_score = total_issues ×
avg_confidence`, and when exactly one detector is detected the risk score is
the confidence of that detector. -/
theorem run_all_diagnostics_summary (H F R E : List ℝ) (r : AggregateResult)
    (h : run_all_diagnostics H F R E = Except.ok r) :
    r.summary.total_issues =
      detectedCount r.trend_mismatch r.missing_seasonality r.volatility_mismatch
        r.magnitude_mismatch ∧
    r.summary.avg_confidence =
      (if r.summary.total_issues = 0 then 0 else
        detectedConfSum r.trend_mismatch r.missing_seasonality r.volatility_mismatch
          r.magnitude_mismatch / (r.summary.total_issues : ℝ)) ∧
    r.summary.risk_score = (r.summary.total_issues : ℝ) * r.summary.avg_confidence ∧
    (r.summary.total_issues = 1 →
      ((r.trend_mismatch.detected → r.summary.risk_score = r.trend_mismatch.confidence) ∧
       (r.missing_seasonality.detected →
         r.summary.risk_score = r.missing_seasonality.confidence) ∧
       (r.volatility_mismatch.detected →
         r.summary.risk_score = r.volatility_mismatch.confidence) ∧
       (r.magnitude_mismatch.detected →
         r.summary.risk_score = r.magnitude_mismatch.confidence))) := by
  simp only [run_all_diagnostics] at h
  cases htr : detect_trend_mismatch H F with
  | error e =>
    rw [htr] at h
    simp at h
  | ok t =>
    rw [htr] at h
    cases hse : detect_missing_seasonality H F with
    | error e =>
      rw [hse] at h
      simp at h
    | ok s =>
      rw [hse] at h
      simp only [Except.ok.injEq] at h
      subst h
      have hs := aggregate_spec t s (detect_volatility_mismatch H F)
        (detect_magnitude_mismatch R E)
      refine ⟨hs.1, ?_, ?_, ?_⟩
      · rw [hs.1]
        exact hs.2.1
      · rw [hs.1]
        exact hs.2.2.1
      · intro h1
        rw [hs.1] at h1
        exact hs.2.2.2 h1

/-- Witness for C1: a concrete successful run (trend detected with confidence
1, nothing else detected) on which the summary invariants are instantiated. -/
theorem run_all_diagnostics_summary_witness :
    ∃ r, run_all_diagnostics [1, 3] [3, 1] [1] [1] = Except.ok r ∧
      r.summary.total_issues =
        detectedCount r.trend_mismatch r.missing_seasonality r.volatility_mismatch
          r.magnitude_mismatch ∧
      r.summary.risk_score = (r.summary.total_issues : ℝ) * r.summary.avg_confidence :=
  ⟨_, run_all_eval, (run_all_diagnostics_summary [1, 3] [3, 1] [1] [1] _ run_all_eval).1,
    (run_all_diagnostics_summary [1, 3] [3, 1] [1] [1] _ run_all_eval).2.2.1⟩

/-- C3: for all four detectors and every input on which they return, if the
result has `detected` false then its confidence is exactly 0. -/
theorem detectors_confidence_zero_when_not_detected :
    (∀ H F r, detect_trend_mismatch H F = Except.ok r → ¬r.detected → r.confidence = 0) ∧
    (∀ H F r, detect_missing_seasonality H F = Except.ok r → ¬r.detected → r.confidence = 0) ∧
    (∀ H F, ¬(detect_volatility_mismatch H F).detected →
      (detect_volatility_mismatch H F).confidence = 0) ∧
    (∀ R E, ¬(detect_magnitude_mismatch R E).detected →
      (detect_magnitude_mismatch R E).confidence = 0) := by
  refine ⟨?_, ?_, ?_, ?_⟩
  · intro H F r h hd
    rw [detect_trend_mismatch] at h
    split_ifs at h with hc
    · injection h with h
      subst h
      simp only [trendResultOf] at hd ⊢
      rw [if_neg hd]
  · intro H F r h hd
    rw [detect_missing_seasonality] at h
    split_ifs at h with hc
    · injection h with h
      subst h
      exact seasResultOf_confidence_eq_zero H F hd
  · intro H F hd
    simp only [detect_volatility_mismatch] at hd ⊢
    rw [if_neg hd]
  · exact magnitude_confidence_eq_zero

/-- Witness for C3: concrete non-detecting inputs for each of the four
detectors, with confidence evaluating to 0. -/
theorem detectors_confidence_zero_witness :
    (∃ r, detect_trend_mismatch [1, 3] [1, 3] = Except.ok r ∧ r.confidence = 0) ∧
    (∃ r, detect_missing_seasonality [1, 3] [3, 1] = Except.ok r ∧ r.confidence = 0) ∧
    (detect_volatility_mismatch [1, 3] [3, 1]).confidence = 0 ∧
    (detect_magnitude_mismatch [1] [1]).confidence = 0 :=
  ⟨⟨trendResultOf [1, 3] [1, 3], detect_trend_13_13,
      detectors_confidence_zero_when_not_detected.1 [1, 3] [1, 3] _ detect_trend_13_13
        trend_not_detected_13_13⟩,
    ⟨seasResultOf [1, 3] [3, 1], detect_seas_13_31,
      detectors_confidence_zero_when_not_detected.2.1 [1, 3] [3, 1] _ detect_seas_13_31
        seas_not_detected_13_31⟩,
    detectors_confidence_zero_when_not_detected.2.2.1 [1, 3] [3, 1] vol_not_detected_13_31,
    detectors_confidence_zero_when_not_detected.2.2.2 [1] [1] mag_not_detected_1_1⟩

/-- C4: a historical or forecast segment of fewer than 2 points makes the
trend detector fail with `InsufficientDataError`, and `run_all_diagnostics`
propagates that error unchanged instead of substituting a default result. -/
theorem trend_insufficient_data_propagates (H F R E : List ℝ)
    (h : H.length < 2 ∨ F.length < 2) :
    detect_trend_mismatch H F = Except.error DiagError.insufficientData ∧
    run_all_diagnostics H F R E = Except.error DiagError.insufficientData := by
  have ht : detect_trend_mismatch H F = Except.error DiagError.insufficientData := by
    rw [detect_trend_mismatch, if_neg]
    omega
  exact ⟨ht, by simp [run_all_diagnostics, ht]⟩

/-- Witness for C4: a one-point historical segment aborts the whole aggregate
run with `InsufficientDataError`. -/
theorem trend_insufficient_data_witness :
    run_all_diagnostics [1] [2, 1] [1] [1] = Except.error DiagError.insufficientData :=
  (trend_insufficient_data_propagates [1] [2, 1] [1] [1] (Or.inl (by norm_num))).2

/-- C6: the trend detector fires exactly when the two OLS slopes have strictly
opposite signs, and a zero slope on either side never fires. -/
theorem trend_detected_iff_opposite_slopes (H F : List ℝ) (r : TrendResult)
    (h : detect_trend_mismatch H F = Except.ok r) :
    (r.detected ↔ ((0 < linregressSlope H ∧ linregressSlope F < 0) ∨
      (linregressSlope H < 0 ∧ 0 < linregressSlope F))) ∧
    ((linregressSlope H = 0 ∨ linregressSlope F = 0) → ¬r.detected) := by
  rw [detect_trend_mismatch] at h
  split_ifs at h with hc
  · injection h with h
    subst h
    constructor
    · simp only [trendResultOf]
    · intro h0 hd
      simp only [trendResultOf] at hd
      rcases hd with ⟨h1, h2⟩ | ⟨h1, h2⟩ <;> rcases h0 with h0 | h0 <;> linarith

/-- Witness for C6: on `[1,3]` (slope 2) against `[3,1]` (slope -2) the trend
detector fires. -/
theorem trend_detected_iff_witness :
    ∃ r, detect_trend_mismatch [1, 3] [3, 1] = Except.ok r ∧ r.detected ∧
      0 < linregressSlope [1, 3] ∧ linregressSlope [3, 1] < 0 :=
  ⟨trendResultOf [1, 3] [3, 1], detect_trend_13_31,
    (trend_detected_iff_opposite_slopes [1, 3] [3, 1] _ detect_trend_13_31).1.mpr
      (Or.inl ⟨by rw [slope_13]; norm_num, by rw [slope_31]; norm_num⟩),
    by rw [slope_13]; norm_num, by rw [slope_31]; norm_num⟩

/-- C7: when the historical coefficient of variation is exactly 0 (including
the zero-mean fallback), the volatility ratio is defined as 1, so the detector
never fires and the confidence is 0, for every forecast segment.  The side
hypothesis restricts to the domain where the real-valued model of `pandas.std`
is faithful (two or more points, or the zero-mean fallback). -/
theorem volatility_zero_hist_cv (H F : List ℝ)
    (hdom : 2 ≤ H.length ∨ mean H = 0) (hcv : seriesCV H = 0) :
    (detect_volatility_mismatch H F).volatility_ratio = 1 ∧
    ¬(detect_volatility_mismatch H F).detected ∧
    (detect_volatility_mismatch H F).confidence = 0 := by
  simp only [detect_volatility_mismatch]
  rw [hcv]
  norm_num

/-- Witness for C7: a zero-mean historical pair forces ratio 1, no detection
and zero confidence against an arbitrary volatile forecast. -/
theorem volatility_zero_hist_cv_witness :
    (detect_volatility_mismatch [1, -1] [5, 100]).volatility_ratio = 1 ∧
    ¬(detect_volatility_mismatch [1, -1] [5, 100]).detected ∧
    (detect_volatility_mismatch [1, -1] [5, 100]).confidence = 0 :=
  volatility_zero_hist_cv [1, -1] [5, 100] (Or.inr (by norm_num [mean])) seriesCV_neg_pair

/-- C10: a strictly negative recent-actuals mean makes the percentage
difference nonpositive (the divisor is the signed mean), so the magnitude
detector never fires, whatever the early forecast is. -/
theorem magnitude_negative_recent_mean (R E : List ℝ)
    (hR : mean R < 0) (hE : 1 ≤ E.length) :
    (detect_magnitude_mismatch R E).pct_difference =
      ((|mean E - mean R| / mean R : ℝ) : EReal) ∧
    (detect_magnitude_mismatch R E).pct_difference ≤ ((0 : ℝ) : EReal) ∧
    ¬(detect_magnitude_mismatch R E).detected ∧
    (detect_magnitude_mismatch R E).confidence = 0 := by
  have hne : mean R ≠ 0 := ne_of_lt hR
  have hpd : (|mean E - mean R| / mean R : ℝ) ≤ 0 :=
    div_nonpos_iff.mpr (Or.inl ⟨abs_nonneg _, hR.le⟩)
  simp only [detect_magnitude_mismatch]
  rw [if_pos hne]
  refine ⟨rfl, EReal.coe_le_coe_iff.mpr hpd, ?_, ?_⟩
  · intro h
    rw [EReal.coe_lt_coe_iff] at h
    linarith
  · rw [if_neg]
    intro h
    rw [EReal.coe_lt_coe_iff] at h
    linarith

/-- Witness for C10: recent mean -2 against a far-away forecast mean 100
still does not fire. -/
theorem magnitude_negative_recent_mean_witness :
    ¬(detect_magnitude_mismatch [-2] [100]).detected ∧
    (detect_magnitude_mismatch [-2] [100]).confidence = 0 :=
  ⟨(magnitude_negative_recent_mean [-2] [100] (by norm_num [mean]) (by norm_num)).2.2.1,
    (magnitude_negative_recent_mean [-2] [100] (by norm_num [mean]) (by norm_num)).2.2.2⟩

/-- Counterexample to C5 as stated: on the one-point segments `[5]` and `[5]`
(length ≥ 1) the seasonality detector does not return a result — the seasonal
bin index is 1 but the magnitude spectrum has length 1, so the indexing
fails. -/
theorem seasonality_fails_on_singleton :
    detect_missing_seasonality [5] [5] = Except.error DiagError.indexOutOfBounds := by
  simp [detect_missing_seasonality, fftMag_length, seasonalFreqIndex]

/-- C5 (amended): for input segments of length ≥ 2, the selected frequency-bin
index is always in bounds for the length-n magnitude spectrum, the spectrum
minus bin 0 is nonempty (so its mean is an average over at least one bin), and
the detector returns a result. -/
theorem seasonality_safe_on_length_ge_two (H F : List ℝ)
    (hH : 2 ≤ H.length) (hF : 2 ≤ F.length) :
    seasonalFreqIndex H.length < H.length ∧ seasonalFreqIndex F.length < F.length ∧
    0 < ((fftMag H).drop 1).length ∧
    ∃ r, detect_missing_seasonality H F = Except.ok r := by
  have h1 := seasonalFreqIndex_lt _ hH
  have h2 := seasonalFreqIndex_lt _ hF
  have hc : seasonalFreqIndex (fftMag H).length < (fftMag H).length ∧
      seasonalFreqIndex (fftMag F).length < (fftMag F).length := by
    rw [fftMag_length, fftMag_length]
    exact ⟨h1, h2⟩
  refine ⟨h1, h2, ?_, seasResultOf H F, ?_⟩
  · rw [List.length_drop, fftMag_length]
    omega
  · rw [detect_missing_seasonality, if_pos hc]

/-- Witness for C5 (amended): two-point segments are safe. -/
theorem seasonality_safe_witness :
    seasonalFreqIndex (List.length [(1 : ℝ), 3]) < List.length [(1 : ℝ), 3] ∧
    ∃ r, detect_missing_seasonality [1, 3] [3, 1] = Except.ok r :=
  ⟨(seasonality_safe_on_length_ge_two [1, 3] [3, 1] (by norm_num) (by norm_num)).1,
    (seasonality_safe_on_length_ge_two [1, 3] [3, 1] (by norm_num) (by norm_num)).2.2.2⟩

/-- C8: when the recent-actuals mean is exactly 0 and the early-forecast mean
is not, the percentage difference is `+∞`, the detector fires, and the
returned confidence is the finite clamped value 1 — the aggregator therefore
only ever sees the real number 1, never an infinity. -/
theorem magnitude_zero_recent_mean_infinite (R E : List ℝ)
    (hlen : 1 ≤ R.length) (hR : mean R = 0) (hE : mean E ≠ 0) :
    (detect_magnitude_mismatch R E).pct_difference = ⊤ ∧
    (detect_magnitude_mismatch R E).detected ∧
    (detect_magnitude_mismatch R E).confidence = 1 := by
  have hne : ¬(mean R ≠ 0) := by simp [hR]
  simp only [detect_magnitude_mismatch]
  rw [if_neg hne, if_pos hE]
  refine ⟨rfl, EReal.coe_lt_top _, ?_⟩
  rw [if_pos (EReal.coe_lt_top _), EReal.top_mul_coe_of_pos (by norm_num),
    min_eq_right le_top, EReal.toReal_coe]

/-- Witness for C8: recent actuals `[1, -1]` (mean 0) against forecast `[3]`. -/
theorem magnitude_zero_recent_mean_infinite_witness :
    (detect_magnitude_mismatch [1, -1] [3]).pct_difference = ⊤ ∧
    (detect_magnitude_mismatch [1, -1] [3]).detected ∧
    (detect_magnitude_mismatch [1, -1] [3]).confidence = 1 :=
  magnitude_zero_recent_mean_infinite [1, -1] [3] (by norm_num)
    (by norm_num [mean]) (by norm_num [mean])

/-- C9: the seasonality and magnitude detectors only ever emit the confidence
values 0 and 1: detection requires the pre-clamp ratio (strength/1.5, resp.
pct_diff/0.5) to exceed 1, so the cap at 1.0 always fires. -/
theorem seas_mag_confidence_two_valued :
    (∀ H F r, detect_missing_seasonality H F = Except.ok r →
      (r.detected → r.confidence = 1) ∧ (r.confidence = 0 ∨ r.confidence = 1)) ∧
    (∀ R E, ((detect_magnitude_mismatch R E).detected →
        (detect_magnitude_mismatch R E).confidence = 1) ∧
      ((detect_magnitude_mismatch R E).confidence = 0 ∨
        (detect_magnitude_mismatch R E).confidence = 1)) := by
  constructor
  · intro H F r h
    rw [detect_missing_seasonality] at h
    split_ifs at h with hc
    injection h with h
    subst h
    refine ⟨seasResultOf_confidence_eq_one H F, ?_⟩
    by_cases hd : (seasResultOf H F).detected
    · exact Or.inr (seasResultOf_confidence_eq_one H F hd)
    · exact Or.inl (seasResultOf_confidence_eq_zero H F hd)
  · intro R E
    exact ⟨magnitude_confidence_eq_one R E, magnitude_confidence_cases R E⟩

/-- Witness for C9: a returning seasonality run and a magnitude run, each with
two-valued confidence. -/
theorem seas_mag_confidence_two_valued_witness :
    (∃ r, detect_missing_seasonality [1, 3] [3, 1] = Except.ok r ∧
      (r.confidence = 0 ∨ r.confidence = 1)) ∧
    ((detect_magnitude_mismatch [1] [1]).confidence = 0 ∨
      (detect_magnitude_mismatch [1] [1]).confidence = 1) :=
  ⟨⟨seasResultOf [1, 3] [3, 1], detect_seas_13_31,
      (seas_mag_confidence_two_valued.1 [1, 3] [3, 1] _ detect_seas_13_31).2⟩,
    (seas_mag_confidence_two_valued.2 [1] [1]).2⟩

/-- Counterexample to C2 as stated: the volatility detector on historical
`[1, 2, 3]` (CV = 1/2) and forecast `[1, -2, -5]` (CV = -3/2, negative mean)
gets ratio -3 and returns confidence `(0.5 - (-3))/0.5 = 7`, outside `[0, 1]`. -/
theorem volatility_confidence_above_one :
    (detect_volatility_mismatch [1, 2, 3] [1, -2, -5]).detected ∧
    (detect_volatility_mismatch [1, 2, 3] [1, -2, -5]).confidence = 7 ∧
    ¬(detect_volatility_mismatch [1, 2, 3] [1, -2, -5]).confidence ≤ 1 := by
  have h9 : Real.sqrt 9 = 3 := by
    rw [show (9 : ℝ) = 3 ^ 2 by norm_num]
    exact Real.sqrt_sq (by norm_num)
  have hcv1 : seriesCV [1, 2, 3] = 1 / 2 := by
    rw [seriesCV, if_pos]
    · norm_num [sampleStd, mean, Real.sqrt_one]
    · norm_num [mean]
  have hcv2 : seriesCV [1, -2, -5] = -(3 / 2) := by
    rw [seriesCV, if_pos]
    · norm_num [sampleStd, mean, h9]
    · norm_num [mean]
  have hne : seriesCV [1, 2, 3] ≠ 0 := by
    rw [hcv1]
    norm_num
  simp only [detect_volatility_mismatch]
  rw [if_pos hne, hcv1, hcv2]
  norm_num

/-- C2 (amended): the confidence lies in `[0, 1]` for the trend, seasonality
and magnitude detectors on every returning input; the volatility confidence is
always nonnegative and lies in `[0, 1]` whenever the volatility ratio is
nonnegative — but a negative ratio (negative CV of one segment) pushes it
above 1, as the counterexample shows. -/
theorem confidence_range_amended :
    (∀ H F r, detect_trend_mismatch H F = Except.ok r →
      0 ≤ r.confidence ∧ r.confidence ≤ 1) ∧
    (∀ H F r, detect_missing_seasonality H F = Except.ok r →
      0 ≤ r.confidence ∧ r.confidence ≤ 1) ∧
    (∀ R E, 0 ≤ (detect_magnitude_mismatch R E).confidence ∧
      (detect_magnitude_mismatch R E).confidence ≤ 1) ∧
    (∀ H F, 0 ≤ (detect_volatility_mismatch H F).confidence) ∧
    (∀ H F, 0 ≤ (detect_volatility_mismatch H F).volatility_ratio →
      (detect_volatility_mismatch H F).confidence ≤ 1) := by
  refine ⟨?_, ?_, ?_, ?_, ?_⟩
  · intro H F r h
    rw [detect_trend_mismatch] at h
    split_ifs at h with hc
    injection h with h
    subst h
    simp only [trendResultOf]
    split_ifs with hd
    · exact ⟨le_min (abs_nonneg _) (abs_nonneg _),
        (min_le_left _ _).trans (abs_linregressR_le_one H)⟩
    · norm_num
  · intro H F r h
    rw [detect_missing_seasonality] at h
    split_ifs at h with hc
    injection h with h
    subst h
    simp only [seasResultOf]
    constructor
    · refine le_min ?_ zero_le_one
      split_ifs with hd
      · exact div_nonneg (seasonalStrength_nonneg _ (fftMag_nonneg H)) (by norm_num)
      · exact le_refl 0
    · exact min_le_right _ _
  · intro R E
    rcases magnitude_confidence_cases R E with h | h <;> rw [h] <;> norm_num
  · intro H F
    simp only [detect_volatility_mismatch]
    split_ifs with h1 h2 h3
    · exact div_nonneg (by linarith) (by norm_num)
    · exact le_refl 0
    · exact absurd h3 (by norm_num)
    · exact le_refl 0
  · intro H F hr
    simp only [detect_volatility_mismatch] at hr ⊢
    split_ifs at hr ⊢ with h1 h2 h3
    · rw [div_le_one (by norm_num)]
      linarith
    · exact zero_le_one
    · exact absurd h3 (by norm_num)
    · exact zero_le_one

/-- Witness for C2 (amended): each conjunct instantiated at concrete inputs
(the volatility pair has ratio 1 ≥ 0). -/
theorem confidence_range_amended_witness :
    (∃ r, detect_trend_mismatch [1, 3] [3, 1] = Except.ok r ∧
      0 ≤ r.confidence ∧ r.confidence ≤ 1) ∧
    (∃ r, detect_missing_seasonality [1, 3] [3, 1] = Except.ok r ∧
      0 ≤ r.confidence ∧ r.confidence ≤ 1) ∧
    (0 ≤ (detect_magnitude_mismatch [1] [1]).confidence ∧
      (detect_magnitude_mismatch [1] [1]).confidence ≤ 1) ∧
    (0 ≤ (detect_volatility_mismatch [1, 3] [3, 1]).confidence) ∧
    ((detect_volatility_mismatch [1, 3] [3, 1]).confidence ≤ 1) :=
  ⟨⟨trendResultOf [1, 3] [3, 1], detect_trend_13_31,
      confidence_range_amended.1 [1, 3] [3, 1] _ detect_trend_13_31⟩,
    ⟨seasResultOf [1, 3] [3, 1], detect_seas_13_31,
      confidence_range_amended.2.1 [1, 3] [3, 1] _ detect_seas_13_31⟩,
    confidence_range_amended.2.2.1 [1] [1],
    confidence_range_amended.2.2.2.1 [1, 3] [3, 1],
    confidence_range_amended.2.2.2.2 [1, 3] [3, 1]
      (by rw [vol_ratio_13_31]; norm_num)⟩

end

end ForecastMonitor
